import Mathlib

/-!
Shallow embedding of the gl_template rendering demo's core components:

* the Result/Error type (src/core/Result.hpp),
* ShaderManager (src/rendering/ShaderManager.cpp),
* TextureLoader (src/rendering/TextureLoader.cpp),
* the Application main loop and accessors (src/core/Application.cpp),
* the legacy single-file variant (src/main.cpp).

The GL driver, the file system and the OS errno reporting are external
collaborators; they are modelled by an explicit deterministic environment
`Env`.  The set of live GPU object names is tracked in `GLState`: a call
such as glCreateShader draws a fresh nonzero name and adds it to the live
set, glDeleteShader removes it.  Machine `GLuint` handles are modelled as
`Nat` (they are opaque ids compared only for equality with the sentinel 0),
`float` division in getAspectRatio as exact division in `ℚ`.
-/

namespace VibeGL

/-- Error information for fallible operations (src/core/Result.hpp, struct Error):
a human-readable message plus context such as a file path or a diagnostic log. -/
structure Error where
  message : String
  context : String
deriving Repr, DecidableEq

/-- Result<T> = std::expected<T, Error> (src/core/Result.hpp): success payload or Error. -/
abbrev Result (α : Type) : Type := Except Error α

/-- Shader stage selector, GL_VERTEX_SHADER / GL_FRAGMENT_SHADER. -/
inductive ShaderType where
  | vertex
  | fragment
deriving Repr, DecidableEq

/-- Deterministic model of everything outside the program: the readable files
(`files p = some contents`, `none` = unreadable), the GL driver's compile and
link outcomes and diagnostic logs (the driver is deterministic in the submitted
sources), the errno value the OS reports for a failed open together with the
strerror table, and the image decoder (stb_image): `decode flip path` is the
decoded size, `none` on a missing/corrupt/unsupported file, and depends on the
process-global vertical-flip flag in effect. -/
structure Env where
  files : String → Option String
  compileOk : ShaderType → String → Bool
  compileLog : ShaderType → String → String
  linkOk : String → String → Bool
  linkLog : String → String → String
  errno : Nat
  errnoMessage : Nat → String
  decode : Bool → String → Option (Nat × Nat)

/-- The live GL object names of the context: shader objects, program objects
and texture objects, plus a counter from which fresh nonzero names are drawn. -/
structure GLState where
  nextId : Nat
  shaders : List Nat
  programs : List Nat
  textures : List Nat
deriving Repr, DecidableEq

/-- A fresh context with no live objects. -/
def GLState.start : GLState := ⟨0, [], [], []⟩

/-- glCreateShader: a fresh nonzero shader name becomes live. -/
def GLState.createShader (st : GLState) : Nat × GLState :=
  (st.nextId + 1,
   { st with nextId := st.nextId + 1, shaders := (st.nextId + 1) :: st.shaders })

/-- glDeleteShader. -/
def GLState.deleteShader (st : GLState) (s : Nat) : GLState :=
  { st with shaders := st.shaders.erase s }

/-- glCreateProgram: a fresh nonzero program name becomes live. -/
def GLState.createProgram (st : GLState) : Nat × GLState :=
  (st.nextId + 1,
   { st with nextId := st.nextId + 1, programs := (st.nextId + 1) :: st.programs })

/-- glDeleteProgram. -/
def GLState.deleteProgram (st : GLState) (p : Nat) : GLState :=
  { st with programs := st.programs.erase p }

/-- glGenTextures(1, ...): a fresh nonzero texture name becomes live. -/
def GLState.genTexture (st : GLState) : Nat × GLState :=
  (st.nextId + 1,
   { st with nextId := st.nextId + 1, textures := (st.nextId + 1) :: st.textures })

/-- glDeleteTextures(1, ...). -/
def GLState.deleteTexture (st : GLState) (t : Nat) : GLState :=
  { st with textures := st.textures.erase t }

/-- Build-time platform shader suffix (src/core/Platform.hpp): "_es3" on the
web/ES dialect, "_gl46" on the desktop dialect. -/
def kShaderSuffix (isWeb : Bool) : String :=
  if isWeb then "_es3" else "_gl46"

namespace ShaderManager

/-- ShaderManager::readFile (ShaderManager.cpp:84-98): the file's text, or a
"Failed to open shader file" Error whose context is the path followed by the
errno number and strerror message. -/
def readFile (env : Env) (path : String) : Result String :=
  match env.files path with
  | some contents => .ok contents
  | none =>
      .error { message := "Failed to open shader file",
               context := path ++ " (errno: " ++ toString env.errno ++ " - " ++
                 env.errnoMessage env.errno ++ ")" }

/-- ShaderManager::compileShader (ShaderManager.cpp:100-126): creates a shader
object and compiles the source; on failure it deletes the shader object and
returns an Error naming the stage ("vertex" for GL_VERTEX_SHADER, "fragment"
otherwise) whose context is the driver's info log. -/
def compileShader (env : Env) (st : GLState) (type : ShaderType) (source : String) :
    Result Nat × GLState :=
  let (shader, st) := st.createShader
  if env.compileOk type source = true then
    (.ok shader, st)
  else
    let typeName := if type = ShaderType.vertex then "vertex" else "fragment"
    (.error { message := typeName ++ " shader compilation failed",
              context := env.compileLog type source },
     st.deleteShader shader)

/-- ShaderManager::linkProgram (ShaderManager.cpp:128-151): creates a program
object, attaches the two compiled stages and links; on failure it deletes the
program object and returns an Error whose context is the driver's info log.
The driver's link outcome is determined by the sources of the two attached
stages, which the model passes alongside the shader names. -/
def linkProgram (env : Env) (st : GLState) (vertShader fragShader : Nat)
    (vertSource fragSource : String) : Result Nat × GLState :=
  let _ := vertShader
  let _ := fragShader
  let (program, st) := st.createProgram
  if env.linkOk vertSource fragSource = true then
    (.ok program, st)
  else
    (.error { message := "Shader program linking failed",
              context := env.linkLog vertSource fragSource },
     st.deleteProgram program)

/-- ShaderManager::loadProgramFromFiles (ShaderManager.cpp:39-74): read both
files, compile both stages (deleting the vertex shader if the fragment stage
fails), link, then delete the two stage objects and return the link result. -/
def loadProgramFromFiles (env : Env) (st : GLState) (vertPath fragPath : String) :
    Result Nat × GLState :=
  match readFile env vertPath with
  | .error e => (.error e, st)
  | .ok vertSource =>
    match readFile env fragPath with
    | .error e => (.error e, st)
    | .ok fragSource =>
      match compileShader env st ShaderType.vertex vertSource with
      | (.error e, st) => (.error e, st)
      | (.ok vertShader, st) =>
        match compileShader env st ShaderType.fragment fragSource with
        | (.error e, st) => (.error e, st.deleteShader vertShader)
        | (.ok fragShader, st) =>
          let (program, st) :=
            linkProgram env st vertShader fragShader vertSource fragSource
          let st := st.deleteShader vertShader
          let st := st.deleteShader fragShader
          (program, st)

/-- ShaderManager::loadProgram (ShaderManager.cpp:32-37): builds the two paths
from directory, base name, platform suffix and extension, then delegates. -/
def loadProgram (isWeb : Bool) (env : Env) (st : GLState)
    (baseName directory : String) : Result Nat × GLState :=
  loadProgramFromFiles env st
    (directory ++ baseName ++ kShaderSuffix isWeb ++ ".vert")
    (directory ++ baseName ++ kShaderSuffix isWeb ++ ".frag")

/-- ShaderManager::deleteProgram (ShaderManager.cpp:76-82): glDeleteProgram
unless the handle is the sentinel 0. -/
def deleteProgram (st : GLState) (program : Nat) : GLState :=
  if program ≠ 0 then st.deleteProgram program else st

end ShaderManager

/-- The process-global stb_image decoder state: the vertical-flip flag set by
stbi_set_flip_vertically_on_load. -/
structure StbState where
  flipFlag : Bool
deriving Repr, DecidableEq

namespace TextureLoader

/-- TextureLoader::loadTexture as defined in TextureLoader.cpp:10-41: it first
overwrites the process-global flip flag from its own flipVertically argument,
then decodes; on decode failure it logs and returns the raw sentinel handle 0
(note: the header TextureLoader.hpp:22 declares the return type Result<GLuint>
instead, and the definition constructs no Error value - see claim C1); on
success it creates a texture object, uploads and returns its handle. -/
def loadTexture (env : Env) (st : GLState) (stb : StbState) (filepath : String)
    (flipVertically : Bool) : Nat × GLState × StbState :=
  let _ := stb
  let stb : StbState := { flipFlag := flipVertically }
  match env.decode stb.flipFlag filepath with
  | none => (0, st, stb)
  | some _dims =>
    let (texture, st) := st.genTexture
    (texture, st, stb)

/-- TextureLoader::deleteTexture (TextureLoader.cpp:43-49): glDeleteTextures
unless the handle is the sentinel 0. -/
def deleteTexture (st : GLState) (texture : Nat) : GLState :=
  if texture ≠ 0 then st.deleteTexture texture else st

end TextureLoader

/-- Framebuffer size as glfwGetFramebufferSize reports it. -/
structure Framebuffer where
  width : Int
  height : Int
deriving Repr, DecidableEq

namespace Application

/-- Application::getWindowWidth (Application.cpp:189-195): the framebuffer width. -/
def getWindowWidth (fb : Framebuffer) : Int := fb.width

/-- Application::getWindowHeight (Application.cpp:197-203): the framebuffer height. -/
def getWindowHeight (fb : Framebuffer) : Int := fb.height

/-- Application::getAspectRatio (Application.cpp:205-214): 1.0 when the height
is 0, otherwise width divided by height (float division modelled exactly in ℚ). -/
def getAspectRatio (fb : Framebuffer) : ℚ :=
  if getWindowHeight fb = 0 then 1
  else (getWindowWidth fb : ℚ) / (getWindowHeight fb : ℚ)

/-- Application::endFrame (Application.cpp:216-219) presents the frame; in the
model it is the identity on the GL object state (a buffer swap allocates nothing). -/
def endFrame (st : GLState) : GLState := st

end Application

/-- The hooks and flags of a derived application, over an abstract application
state σ (window close flag, demo state, ...): onInit / onTick wrapped in tick()
(Application.cpp:168-176, delta-time bookkeeping and event polling folded into
the state transition) / the shouldQuit accessor reading the close-requested
flag (Application.cpp:184-187, overridable) / onShutdown. -/
structure AppOps (σ : Type) where
  onInit : σ → σ
  tick : σ → σ
  shouldQuit : σ → Bool
  onShutdown : σ → σ

/-- One observable lifecycle-hook invocation of run(). -/
inductive HookEvent where
  | init
  | tick
  | shutdown
deriving Repr, DecidableEq

namespace Application

/-- The desktop while-loop of Application::run (Application.cpp:157-161):
tick() until shouldQuit() reports the close-requested flag, recording one
HookEvent.tick per frame.  fuel bounds the iterations observed; none means
the close request did not arrive within fuel frames (run() has not returned). -/
def loopFrames {σ : Type} (A : AppOps σ) : Nat → σ → Option (σ × List HookEvent)
  | 0, _ => none
  | fuel + 1, s =>
    if A.shouldQuit s = true then some (s, [])
    else (loopFrames A fuel (A.tick s)).map (fun r => (r.1, HookEvent.tick :: r.2))

/-- Application::run on the desktop target (Application.cpp:147-166): onInit,
the blocking loop, then the onShutdown hook once. -/
def runDesktop {σ : Type} (A : AppOps σ) (fuel : Nat) (s : σ) :
    Option (σ × List HookEvent) :=
  let s := A.onInit s
  match loopFrames A fuel s with
  | none => none
  | some (sEnd, evs) =>
      some (A.onShutdown sEnd, HookEvent.init :: evs ++ [HookEvent.shutdown])

/-- The web branch of Application::run (Application.cpp:152-155):
emscripten_set_main_loop_arg registers tick() (via emscriptenMainLoop,
Application.cpp:178-182) as the per-animation-frame callback; no shutdown
hook is ever invoked on this target. -/
def registerMainLoop {σ : Type} (A : AppOps σ) (s : σ) : (σ → σ) × σ :=
  (A.tick, s)

/-- The web run observed for `frames` host-scheduled animation frames: onInit,
register tick(), then the host invokes the registered callback once per frame. -/
def runWeb {σ : Type} (A : AppOps σ) (frames : Nat) (s : σ) : σ × List HookEvent :=
  let s := A.onInit s
  let cb := registerMainLoop A s
  (cb.1^[frames] cb.2, HookEvent.init :: List.replicate frames HookEvent.tick)

end Application

namespace Legacy

/-- readFile in the legacy single-file variant (main.cpp:82-93): logs and
returns the empty string when the file cannot be opened. -/
def readFile (env : Env) (filepath : String) : String :=
  match env.files filepath with
  | none => ""
  | some contents => contents

/-- compileShader in the legacy variant (main.cpp:95-115): shader id on
success, sentinel 0 on compile failure (the shader object is deleted). -/
def compileShader (env : Env) (st : GLState) (type : ShaderType) (source : String) :
    Nat × GLState :=
  let (shader, st) := st.createShader
  if env.compileOk type source = true then (shader, st)
  else (0, st.deleteShader shader)

/-- createShaderProgram in the legacy variant (main.cpp:117-167): reads both
files (empty string standing for both an unreadable and an empty file),
compiles both stages, links, and returns the program id, or the sentinel 0 on
any failure, deleting whatever objects were created. -/
def createShaderProgram (env : Env) (st : GLState) (vertPath fragPath : String) :
    Nat × GLState :=
  let vertSource := readFile env vertPath
  let fragSource := readFile env fragPath
  if vertSource = "" ∨ fragSource = "" then (0, st)
  else
    let (vertShader, st) := compileShader env st ShaderType.vertex vertSource
    let (fragShader, st) := compileShader env st ShaderType.fragment fragSource
    if vertShader = 0 ∨ fragShader = 0 then
      let st := if vertShader ≠ 0 then st.deleteShader vertShader else st
      let st := if fragShader ≠ 0 then st.deleteShader fragShader else st
      (0, st)
    else
      let (program, st) := st.createProgram
      if env.linkOk vertSource fragSource = true then
        let st := st.deleteShader vertShader
        let st := st.deleteShader fragShader
        (program, st)
      else
        let st := st.deleteProgram program
        let st := st.deleteShader vertShader
        let st := st.deleteShader fragShader
        (0, st)

/-- loadTexture in the legacy variant (main.cpp:169-199): flip hardcoded to 1,
texture id on success, sentinel 0 on decode failure. -/
def loadTexture (env : Env) (st : GLState) (filepath : String) : Nat × GLState :=
  match env.decode true filepath with
  | none => (0, st)
  | some _dims => st.genTexture

/-- Outcomes of the host-dependent GLFW/GLAD initialization steps of the
legacy main (glfwInit, glfwCreateWindow, gladLoadGLLoader). -/
structure HostInit where
  glfwInitOk : Bool
  windowOk : Bool
  gladOk : Bool
deriving Repr, DecidableEq

/-- The exit code of the legacy main (main.cpp:214-448): -1 on each failed
initialization step (GLFW init, window creation, GLAD loading, shader program
creation, texture loading), else the main loop runs until the close-requested
flag (it cannot change the exit code) and the post-loop cleanup returns 0.
ImGui setup (main.cpp:262-271) has no checked failure path. -/
def mainExitCode (env : Env) (host : HostInit) : Int :=
  if host.glfwInitOk = false then -1
  else if host.windowOk = false then -1
  else if host.gladOk = false then -1
  else
    let sp := createShaderProgram env GLState.start "shaders/cube.vert" "shaders/cube.frag"
    if sp.1 = 0 then -1
    else
      let tex := loadTexture env sp.2 "textures/sample.png"
      if tex.1 = 0 then -1
      else 0

end Legacy

/-! Concrete environments used to evaluate the embedded code on specific inputs. -/

/-- Every file readable with source "SRC", every compile and link succeeds,
every image decodes at 2x2. -/
def envAllOk : Env where
  files := fun _ => some "SRC"
  compileOk := fun _ _ => true
  compileLog := fun _ _ => ""
  linkOk := fun _ _ => true
  linkLog := fun _ _ => ""
  errno := 0
  errnoMessage := fun _ => ""
  decode := fun _ _ => some (2, 2)

/-- No file readable (errno 2, ENOENT) and no image decodes. -/
def envAllMissing : Env where
  files := fun _ => none
  compileOk := fun _ _ => true
  compileLog := fun _ _ => ""
  linkOk := fun _ _ => true
  linkLog := fun _ _ => ""
  errno := 2
  errnoMessage := fun _ => "No such file or directory"
  decode := fun _ _ => none

/-- Files readable, the vertex stage compiles, the fragment stage fails with log "LOG". -/
def envFragFail : Env where
  files := fun _ => some "SRC"
  compileOk := fun t _ => match t with | ShaderType.vertex => true | ShaderType.fragment => false
  compileLog := fun _ _ => "LOG"
  linkOk := fun _ _ => true
  linkLog := fun _ _ => ""
  errno := 0
  errnoMessage := fun _ => ""
  decode := fun _ _ => none

/-- Files readable with source "bad", every compile fails with log "syntax error". -/
def envVertFail : Env where
  files := fun _ => some "bad"
  compileOk := fun _ _ => false
  compileLog := fun _ _ => "syntax error"
  linkOk := fun _ _ => true
  linkLog := fun _ _ => ""
  errno := 0
  errnoMessage := fun _ => ""
  decode := fun _ _ => none

/-- Files readable with source "bad", every compile fails and the driver
reports an empty info log (GL_INFO_LOG_LENGTH 0). -/
def envVertFailEmptyLog : Env where
  files := fun _ => some "bad"
  compileOk := fun _ _ => false
  compileLog := fun _ _ => ""
  linkOk := fun _ _ => true
  linkLog := fun _ _ => ""
  errno := 0
  errnoMessage := fun _ => ""
  decode := fun _ _ => none

/-- Every file readable but EMPTY; the driver accepts empty sources and links them. -/
def envEmptyFileOk : Env where
  files := fun _ => some ""
  compileOk := fun _ _ => true
  compileLog := fun _ _ => ""
  linkOk := fun _ _ => true
  linkLog := fun _ _ => ""
  errno := 0
  errnoMessage := fun _ => ""
  decode := fun _ _ => none

/-- A tiny concrete application over state σ = Nat: tick increments, the
close-requested flag is reached at state 2, shutdown adds 1000. -/
def demoApp : AppOps Nat where
  onInit := fun s => s
  tick := fun s => s + 1
  shouldQuit := fun s => decide (2 ≤ s)
  onShutdown := fun s => s + 1000

/-! ### Branch-by-branch evaluation of ShaderManager::loadProgramFromFiles -/

/-- Unreadable vertex path: the FileReadError for it, GL state untouched. -/
theorem lp_vert_unreadable (env : Env) (st : GLState) (vp fp : String)
    (hv : env.files vp = none) :
    ShaderManager.loadProgramFromFiles env st vp fp =
      (Except.error ⟨"Failed to open shader file",
         vp ++ " (errno: " ++ toString env.errno ++ " - " ++
           env.errnoMessage env.errno ++ ")"⟩, st) := by
  simp [ShaderManager.loadProgramFromFiles, ShaderManager.readFile, hv]

/-- Readable vertex path but unreadable fragment path: its FileReadError, GL
state untouched. -/
theorem lp_frag_unreadable (env : Env) (st : GLState) (vp fp vs : String)
    (hv : env.files vp = some vs) (hf : env.files fp = none) :
    ShaderManager.loadProgramFromFiles env st vp fp =
      (Except.error ⟨"Failed to open shader file",
         fp ++ " (errno: " ++ toString env.errno ++ " - " ++
           env.errnoMessage env.errno ++ ")"⟩, st) := by
  simp [ShaderManager.loadProgramFromFiles, ShaderManager.readFile, hv, hf]

/-- Vertex stage fails to compile: the ShaderCompileError for the vertex
stage, and the live object lists return to their initial contents. -/
theorem lp_vert_compile_fail (env : Env) (st : GLState) (vp fp vs fs : String)
    (hv : env.files vp = some vs) (hf : env.files fp = some fs)
    (hcv : env.compileOk ShaderType.vertex vs = false) :
    (ShaderManager.loadProgramFromFiles env st vp fp).1 =
      Except.error ⟨"vertex shader compilation failed",
        env.compileLog ShaderType.vertex vs⟩ ∧
    (ShaderManager.loadProgramFromFiles env st vp fp).2.shaders = st.shaders ∧
    (ShaderManager.loadProgramFromFiles env st vp fp).2.programs = st.programs ∧
    (ShaderManager.loadProgramFromFiles env st vp fp).2.textures = st.textures := by
  simp [ShaderManager.loadProgramFromFiles, ShaderManager.readFile,
    ShaderManager.compileShader, GLState.createShader, GLState.deleteShader,
    hv, hf, hcv]

/-- Fragment stage fails to compile: the ShaderCompileError for the fragment
stage, and the live object lists return to their initial contents. -/
theorem lp_frag_compile_fail (env : Env) (st : GLState) (vp fp vs fs : String)
    (hv : env.files vp = some vs) (hf : env.files fp = some fs)
    (hcv : env.compileOk ShaderType.vertex vs = true)
    (hcf : env.compileOk ShaderType.fragment fs = false) :
    (ShaderManager.loadProgramFromFiles env st vp fp).1 =
      Except.error ⟨"fragment shader compilation failed",
        env.compileLog ShaderType.fragment fs⟩ ∧
    (ShaderManager.loadProgramFromFiles env st vp fp).2.shaders = st.shaders ∧
    (ShaderManager.loadProgramFromFiles env st vp fp).2.programs = st.programs ∧
    (ShaderManager.loadProgramFromFiles env st vp fp).2.textures = st.textures := by
  simp [ShaderManager.loadProgramFromFiles, ShaderManager.readFile,
    ShaderManager.compileShader, GLState.createShader, GLState.deleteShader,
    hv, hf, hcv, hcf]

/-- Both stages compile but linking fails: the ShaderLinkError, and the live
object lists return to their initial contents. -/
theorem lp_link_fail (env : Env) (st : GLState) (vp fp vs fs : String)
    (hv : env.files vp = some vs) (hf : env.files fp = some fs)
    (hcv : env.compileOk ShaderType.vertex vs = true)
    (hcf : env.compileOk ShaderType.fragment fs = true)
    (hlk : env.linkOk vs fs = false) :
    (ShaderManager.loadProgramFromFiles env st vp fp).1 =
      Except.error ⟨"Shader program linking failed", env.linkLog vs fs⟩ ∧
    (ShaderManager.loadProgramFromFiles env st vp fp).2.shaders = st.shaders ∧
    (ShaderManager.loadProgramFromFiles env st vp fp).2.programs = st.programs ∧
    (ShaderManager.loadProgramFromFiles env st vp fp).2.textures = st.textures := by
  have hne : st.nextId + 1 + 1 ≠ st.nextId + 1 := by omega
  simp [ShaderManager.loadProgramFromFiles, ShaderManager.readFile,
    ShaderManager.compileShader, ShaderManager.linkProgram, GLState.createShader,
    GLState.createProgram, GLState.deleteShader, GLState.deleteProgram,
    List.erase_cons, hv, hf, hcv, hcf, hlk, hne]

/-- Every step succeeds: a nonzero program handle is returned. -/
theorem lp_allok (env : Env) (st : GLState) (vp fp vs fs : String)
    (hv : env.files vp = some vs) (hf : env.files fp = some fs)
    (hcv : env.compileOk ShaderType.vertex vs = true)
    (hcf : env.compileOk ShaderType.fragment fs = true)
    (hlk : env.linkOk vs fs = true) :
    (ShaderManager.loadProgramFromFiles env st vp fp).1 =
      Except.ok (st.nextId + 1 + 1 + 1) ∧
    st.nextId + 1 + 1 + 1 ≠ 0 := by
  refine ⟨?_, by omega⟩
  simp [ShaderManager.loadProgramFromFiles, ShaderManager.readFile,
    ShaderManager.compileShader, ShaderManager.linkProgram, GLState.createShader,
    GLState.createProgram, GLState.deleteShader,
    hv, hf, hcv, hcf, hlk]

/-! ### Branch-by-branch evaluation of the legacy createShaderProgram -/

/-- An unreadable-or-empty file makes the legacy loader return 0 before
compiling anything. -/
theorem legacy_unreadable_or_empty (env : Env) (st : GLState) (vp fp : String)
    (h : Legacy.readFile env vp = "" ∨ Legacy.readFile env fp = "") :
    Legacy.createShaderProgram env st vp fp = (0, st) := by
  simp only [Legacy.createShaderProgram]
  rw [if_pos h]

/-- Vertex compile failure makes the legacy loader return 0. -/
theorem legacy_vert_compile_fail (env : Env) (st : GLState) (vp fp vs fs : String)
    (hv : env.files vp = some vs) (hvs : ¬vs = "")
    (hf : env.files fp = some fs) (hfs : ¬fs = "")
    (hcv : env.compileOk ShaderType.vertex vs = false) :
    (Legacy.createShaderProgram env st vp fp).1 = 0 := by
  cases hcf : env.compileOk ShaderType.fragment fs <;>
    simp [Legacy.createShaderProgram, Legacy.readFile, Legacy.compileShader,
      GLState.createShader, GLState.deleteShader, hv, hf, hvs, hfs, hcv, hcf]

/-- Fragment compile failure makes the legacy loader return 0. -/
theorem legacy_frag_compile_fail (env : Env) (st : GLState) (vp fp vs fs : String)
    (hv : env.files vp = some vs) (hvs : ¬vs = "")
    (hf : env.files fp = some fs) (hfs : ¬fs = "")
    (hcv : env.compileOk ShaderType.vertex vs = true)
    (hcf : env.compileOk ShaderType.fragment fs = false) :
    (Legacy.createShaderProgram env st vp fp).1 = 0 := by
  simp [Legacy.createShaderProgram, Legacy.readFile, Legacy.compileShader,
    GLState.createShader, GLState.deleteShader, hv, hf, hvs, hfs, hcv, hcf]

/-- Link failure makes the legacy loader return 0. -/
theorem legacy_link_fail (env : Env) (st : GLState) (vp fp vs fs : String)
    (hv : env.files vp = some vs) (hvs : ¬vs = "")
    (hf : env.files fp = some fs) (hfs : ¬fs = "")
    (hcv : env.compileOk ShaderType.vertex vs = true)
    (hcf : env.compileOk ShaderType.fragment fs = true)
    (hlk : env.linkOk vs fs = false) :
    (Legacy.createShaderProgram env st vp fp).1 = 0 := by
  simp [Legacy.createShaderProgram, Legacy.readFile, Legacy.compileShader,
    GLState.createShader, GLState.createProgram, GLState.deleteShader,
    GLState.deleteProgram, hv, hf, hvs, hfs, hcv, hcf, hlk]

/-- Every step succeeds: the legacy loader returns the (nonzero) program id. -/
theorem legacy_allok (env : Env) (st : GLState) (vp fp vs fs : String)
    (hv : env.files vp = some vs) (hvs : ¬vs = "")
    (hf : env.files fp = some fs) (hfs : ¬fs = "")
    (hcv : env.compileOk ShaderType.vertex vs = true)
    (hcf : env.compileOk ShaderType.fragment fs = true)
    (hlk : env.linkOk vs fs = true) :
    (Legacy.createShaderProgram env st vp fp).1 = st.nextId + 1 + 1 + 1 := by
  simp [Legacy.createShaderProgram, Legacy.readFile, Legacy.compileShader,
    GLState.createShader, GLState.createProgram, GLState.deleteShader,
    hv, hf, hvs, hfs, hcv, hcf, hlk]

/-! ### Claim theorems -/

/-- C6: for every framebuffer state, getAspectRatio() returns
getWindowWidth() divided by getWindowHeight() when the height is positive,
and exactly 1 when the height is 0. -/
theorem getAspectRatio_spec (fb : Framebuffer) :
    (0 < Application.getWindowHeight fb →
      Application.getAspectRatio fb =
        (Application.getWindowWidth fb : ℚ) / (Application.getWindowHeight fb : ℚ)) ∧
    (Application.getWindowHeight fb = 0 → Application.getAspectRatio fb = 1) := by
  constructor
  · intro h
    have hne : Application.getWindowHeight fb ≠ 0 := by omega
    simp [Application.getAspectRatio, hne]
  · intro h
    simp [Application.getAspectRatio, h]

/-- C6 witness: the two branches evaluated at 800x600 and 800x0. -/
theorem getAspectRatio_spec_witness :
    0 < Application.getWindowHeight ⟨800, 600⟩ ∧
    Application.getAspectRatio ⟨800, 600⟩ =
      (Application.getWindowWidth ⟨800, 600⟩ : ℚ) /
        (Application.getWindowHeight ⟨800, 600⟩ : ℚ) ∧
    Application.getAspectRatio ⟨800, 0⟩ = 1 :=
  ⟨by decide, (getAspectRatio_spec ⟨800, 600⟩).1 (by decide),
    (getAspectRatio_spec ⟨800, 0⟩).2 rfl⟩

/-- C9: deleteProgram(0) and deleteTexture(0) delete nothing and leave the GL
state unchanged; a handle deleted once and then set to the 0 sentinel by the
caller makes the second delete call likewise a no-op. -/
theorem delete_sentinel_handles_noop (st : GLState) (h : Nat) :
    ShaderManager.deleteProgram st 0 = st ∧
    TextureLoader.deleteTexture st 0 = st ∧
    ShaderManager.deleteProgram (ShaderManager.deleteProgram st h) 0 =
      ShaderManager.deleteProgram st h ∧
    TextureLoader.deleteTexture (TextureLoader.deleteTexture st h) 0 =
      TextureLoader.deleteTexture st h := by
  simp [ShaderManager.deleteProgram, TextureLoader.deleteTexture]

/-- C10: the outcome of a loadTexture call does not depend on the
process-global flip flag left behind by earlier loads - the call overwrites
the flag from its own flipVertically argument before decoding, and leaves the
flag equal to that argument. -/
theorem loadTexture_independent_of_prior_flip (env : Env) (st : GLState)
    (g₁ g₂ : Bool) (path : String) (flip : Bool) :
    TextureLoader.loadTexture env st ⟨g₁⟩ path flip =
      TextureLoader.loadTexture env st ⟨g₂⟩ path flip ∧
    (TextureLoader.loadTexture env st ⟨g₁⟩ path flip).2.2 = ⟨flip⟩ := by
  refine ⟨rfl, ?_⟩
  cases hd : env.decode flip path <;>
    simp [TextureLoader.loadTexture, hd]

/-- C1: evaluation of TextureLoader::loadTexture, as defined in
TextureLoader.cpp, at a failing input: it returns the raw sentinel handle 0
and constructs no Error value (its definition's return type is a bare handle,
although the header declares Result<GLuint>). -/
theorem loadTexture_decode_failure_returns_sentinel :
    TextureLoader.loadTexture envAllMissing GLState.start ⟨false⟩ "missing.png" true =
      (0, GLState.start, ⟨true⟩) := rfl

/-- C7 counterexample: a driver whose failed compile reports an empty info
log makes loadProgramFromFiles return a ShaderCompileError whose context is
the empty string - not a non-empty diagnostic log. -/
theorem compile_error_empty_log_counterexample :
    (ShaderManager.loadProgramFromFiles envVertFailEmptyLog GLState.start
        "bad.vert" "bad.frag").1 =
      Except.error ⟨"vertex shader compilation failed", ""⟩ := rfl

/-- C7 (amended): when a stage fails to compile, loadProgramFromFiles returns
a ShaderCompileError whose message identifies the failing stage ("vertex" or
"fragment") and whose context is the compiler's diagnostic log verbatim
(hence non-empty exactly when the driver emits a non-empty log). -/
theorem compile_error_reports_stage_and_log (env : Env) (st : GLState)
    (vp fp vs fs : String) (hv : env.files vp = some vs)
    (hf : env.files fp = some fs) :
    (env.compileOk ShaderType.vertex vs = false →
      (ShaderManager.loadProgramFromFiles env st vp fp).1 =
        Except.error ⟨"vertex shader compilation failed",
          env.compileLog ShaderType.vertex vs⟩) ∧
    (env.compileOk ShaderType.vertex vs = true →
      env.compileOk ShaderType.fragment fs = false →
      (ShaderManager.loadProgramFromFiles env st vp fp).1 =
        Except.error ⟨"fragment shader compilation failed",
          env.compileLog ShaderType.fragment fs⟩) := by
  constructor
  · intro hcv
    exact (lp_vert_compile_fail env st vp fp vs fs hv hf hcv).1
  · intro hcv hcf
    exact (lp_frag_compile_fail env st vp fp vs fs hv hf hcv hcf).1

/-- C7 witness: at the concrete environment envVertFail the vertex stage
fails and the error carries the stage name and the log "syntax error". -/
theorem compile_error_reports_stage_and_log_witness :
    (envVertFail.compileOk ShaderType.vertex "bad" = false →
      (ShaderManager.loadProgramFromFiles envVertFail GLState.start
          "a.vert" "a.frag").1 =
        Except.error ⟨"vertex shader compilation failed",
          envVertFail.compileLog ShaderType.vertex "bad"⟩) ∧
    (envVertFail.compileOk ShaderType.vertex "bad" = true →
      envVertFail.compileOk ShaderType.fragment "bad" = false →
      (ShaderManager.loadProgramFromFiles envVertFail GLState.start
          "a.vert" "a.frag").1 =
        Except.error ⟨"fragment shader compilation failed",
          envVertFail.compileLog ShaderType.fragment "bad"⟩) :=
  compile_error_reports_stage_and_log envVertFail GLState.start
    "a.vert" "a.frag" "bad" "bad" rfl rfl

/-- C8: whenever the vertex path is unreadable, loadProgramFromFiles returns
a FileReadError whose context is that path followed by an OS-level diagnostic
(errno number and strerror text). -/
theorem loadProgramFromFiles_unreadable_vert (env : Env) (st : GLState)
    (vp fp : String) (hv : env.files vp = none) :
    ShaderManager.loadProgramFromFiles env st vp fp =
      (Except.error ⟨"Failed to open shader file",
         vp ++ " (errno: " ++ toString env.errno ++ " - " ++
           env.errnoMessage env.errno ++ ")"⟩, st) ∧
    ∃ osDiag,
      vp ++ " (errno: " ++ toString env.errno ++ " - " ++
          env.errnoMessage env.errno ++ ")" =
        vp ++ osDiag := by
  refine ⟨lp_vert_unreadable env st vp fp hv, ?_⟩
  exact ⟨" (errno: " ++ toString env.errno ++ " - " ++
    env.errnoMessage env.errno ++ ")", by simp [String.append_assoc]⟩

/-- C8 witness: loadProgramFromFiles("missing.vert", "missing.frag") with no
readable file returns a failure whose context starts with "missing.vert". -/
theorem loadProgramFromFiles_unreadable_vert_witness :
    envAllMissing.files "missing.vert" = none ∧
    (ShaderManager.loadProgramFromFiles envAllMissing GLState.start
        "missing.vert" "missing.frag" =
      (Except.error ⟨"Failed to open shader file",
         "missing.vert" ++ " (errno: " ++ toString envAllMissing.errno ++ " - " ++
           envAllMissing.errnoMessage envAllMissing.errno ++ ")"⟩, GLState.start) ∧
     ∃ osDiag,
       "missing.vert" ++ " (errno: " ++ toString envAllMissing.errno ++ " - " ++
           envAllMissing.errnoMessage envAllMissing.errno ++ ")" =
         "missing.vert" ++ osDiag) :=
  ⟨rfl, loadProgramFromFiles_unreadable_vert envAllMissing GLState.start
    "missing.vert" "missing.frag" rfl⟩

/-- C3: whenever loadProgramFromFiles returns a failure - unreadable file,
either compile failure, or link failure - the live shader, program and
texture object lists are exactly as before the call: every GPU object
created earlier in the call was deleted before the error was returned. -/
theorem loadProgramFromFiles_failure_net_zero_objects (env : Env)
    (st st' : GLState) (vp fp : String) (e : Error)
    (h : ShaderManager.loadProgramFromFiles env st vp fp = (Except.error e, st')) :
    st'.shaders = st.shaders ∧ st'.programs = st.programs ∧
      st'.textures = st.textures := by
  have h2 : (ShaderManager.loadProgramFromFiles env st vp fp).2 = st' := by rw [h]
  cases hv : env.files vp with
  | none =>
      rw [lp_vert_unreadable env st vp fp hv] at h2
      simp only at h2
      subst h2
      exact ⟨rfl, rfl, rfl⟩
  | some vs =>
    cases hf : env.files fp with
    | none =>
        rw [lp_frag_unreadable env st vp fp vs hv hf] at h2
        simp only at h2
        subst h2
        exact ⟨rfl, rfl, rfl⟩
    | some fs =>
      cases hcv : env.compileOk ShaderType.vertex vs with
      | false =>
          obtain ⟨-, c1, c2, c3⟩ := lp_vert_compile_fail env st vp fp vs fs hv hf hcv
          rw [h2] at c1 c2 c3
          exact ⟨c1, c2, c3⟩
      | true =>
        cases hcf : env.compileOk ShaderType.fragment fs with
        | false =>
            obtain ⟨-, c1, c2, c3⟩ := lp_frag_compile_fail env st vp fp vs fs hv hf hcv hcf
            rw [h2] at c1 c2 c3
            exact ⟨c1, c2, c3⟩
        | true =>
          cases hlk : env.linkOk vs fs with
          | false =>
              obtain ⟨-, c1, c2, c3⟩ := lp_link_fail env st vp fp vs fs hv hf hcv hcf hlk
              rw [h2] at c1 c2 c3
              exact ⟨c1, c2, c3⟩
          | true =>
              obtain ⟨hok, -⟩ := lp_allok env st vp fp vs fs hv hf hcv hcf hlk
              rw [h] at hok
              exact absurd hok (by simp)

/-- C3 witness: a fragment-stage compile failure after a successful vertex
compile; the shader created for the vertex stage is deleted again and the
final object lists equal the initial (empty) ones. -/
theorem loadProgramFromFiles_failure_net_zero_objects_witness :
    ShaderManager.loadProgramFromFiles envFragFail GLState.start "a.vert" "a.frag" =
      (Except.error ⟨"fragment shader compilation failed", "LOG"⟩,
        (⟨2, [], [], []⟩ : GLState)) ∧
    ((⟨2, [], [], []⟩ : GLState).shaders = GLState.start.shaders ∧
     (⟨2, [], [], []⟩ : GLState).programs = GLState.start.programs ∧
     (⟨2, [], [], []⟩ : GLState).textures = GLState.start.textures) :=
  ⟨rfl, loadProgramFromFiles_failure_net_zero_objects envFragFail GLState.start
    ⟨2, [], [], []⟩ "a.vert" "a.frag"
    ⟨"fragment shader compilation failed", "LOG"⟩ rfl⟩

/-- C2 counterexample: with window creation failing, the legacy main exits
with code -1, not with the exit code 1 the claim states. -/
theorem main_exit_code_counterexample :
    Legacy.mainExitCode envAllMissing ⟨true, false, true⟩ = -1 ∧
    (-1 : Int) ≠ 1 := by
  exact ⟨rfl, by decide⟩

/-- C2 (amended): the legacy main exits 0 exactly when every checked
initialization step succeeds (the loop then runs until the close-requested
flag and the post-loop cleanup returns 0), and exits -1 - not 1 - on any
fatal initialization failure; UI-subsystem setup has no checked failure path. -/
theorem mainExitCode_spec (env : Env) (host : Legacy.HostInit) :
    (Legacy.mainExitCode env host = 0 ∨ Legacy.mainExitCode env host = -1) ∧
    (Legacy.mainExitCode env host = 0 ↔
      (host.glfwInitOk = true ∧ host.windowOk = true ∧ host.gladOk = true ∧
       (Legacy.createShaderProgram env GLState.start "shaders/cube.vert"
           "shaders/cube.frag").1 ≠ 0 ∧
       (Legacy.loadTexture env
           (Legacy.createShaderProgram env GLState.start "shaders/cube.vert"
             "shaders/cube.frag").2 "textures/sample.png").1 ≠ 0)) := by
  cases hg : host.glfwInitOk <;> cases hw : host.windowOk <;>
    cases hd : host.gladOk <;>
    by_cases hsp : (Legacy.createShaderProgram env GLState.start "shaders/cube.vert"
      "shaders/cube.frag").1 = 0 <;>
    by_cases htx : (Legacy.loadTexture env
      (Legacy.createShaderProgram env GLState.start "shaders/cube.vert"
        "shaders/cube.frag").2 "textures/sample.png").1 = 0 <;>
    simp [Legacy.mainExitCode, hg, hw, hd, hsp, htx]

/-- C2 witness: with every initialization step succeeding the exit code is 0. -/
theorem mainExitCode_spec_witness :
    Legacy.mainExitCode envAllOk ⟨true, true, true⟩ = 0 :=
  (mainExitCode_spec envAllOk ⟨true, true, true⟩).2.mpr
    ⟨rfl, rfl, rfl, by decide, by decide⟩

/-- C5 counterexample: under a GL behaviour that accepts empty sources, a
shader file that is readable but empty makes the legacy createShaderProgram
return the sentinel 0 while loadProgramFromFiles succeeds - so "returns 0
exactly when loadProgramFromFiles returns a typed failure" is false. -/
theorem legacy_equivalence_counterexample :
    (Legacy.createShaderProgram envEmptyFileOk GLState.start "a.vert" "a.frag").1 = 0 ∧
    (ShaderManager.loadProgramFromFiles envEmptyFileOk GLState.start
        "a.vert" "a.frag").1 = Except.ok 3 :=
  ⟨rfl, rfl⟩

/-- C5 (amended): the legacy createShaderProgram returns the sentinel 0
exactly when loadProgramFromFiles fails on the same inputs under the same
environment OR one of the two shader files is readable but empty (the legacy
variant conflates an empty file with a read failure); and whenever the legacy
variant returns a nonzero program, loadProgramFromFiles succeeds with a
nonzero handle, both having compiled the same two sources and linked them
under the same GL behaviour. -/
theorem legacy_matches_result_loader (env : Env) (st₁ st₂ : GLState)
    (vp fp : String) :
    ((Legacy.createShaderProgram env st₁ vp fp).1 = 0 ↔
      ((∃ e, (ShaderManager.loadProgramFromFiles env st₂ vp fp).1 =
          Except.error e) ∨
        env.files vp = some "" ∨ env.files fp = some "")) ∧
    ((Legacy.createShaderProgram env st₁ vp fp).1 ≠ 0 →
      ∃ vs fs p, env.files vp = some vs ∧ env.files fp = some fs ∧
        env.compileOk ShaderType.vertex vs = true ∧
        env.compileOk ShaderType.fragment fs = true ∧
        env.linkOk vs fs = true ∧
        (ShaderManager.loadProgramFromFiles env st₂ vp fp).1 = Except.ok p ∧
        p ≠ 0) := by
  cases hv : env.files vp with
  | none =>
      rw [legacy_unreadable_or_empty env st₁ vp fp
        (Or.inl (by simp [Legacy.readFile, hv]))]
      have hN := lp_vert_unreadable env st₂ vp fp hv
      constructor
      · simp [hN]
      · simp
  | some vs =>
    by_cases hvs : vs = ""
    · subst hvs
      rw [legacy_unreadable_or_empty env st₁ vp fp
        (Or.inl (by simp [Legacy.readFile, hv]))]
      constructor
      · simp [hv]
      · simp
    · cases hf : env.files fp with
      | none =>
          rw [legacy_unreadable_or_empty env st₁ vp fp
            (Or.inr (by simp [Legacy.readFile, hf]))]
          have hN := lp_frag_unreadable env st₂ vp fp vs hv hf
          constructor
          · simp [hN]
          · simp
      | some fs =>
        by_cases hfs : fs = ""
        · subst hfs
          rw [legacy_unreadable_or_empty env st₁ vp fp
            (Or.inr (by simp [Legacy.readFile, hf]))]
          constructor
          · simp [hf]
          · simp
        · cases hcv : env.compileOk ShaderType.vertex vs with
          | false =>
              rw [legacy_vert_compile_fail env st₁ vp fp vs fs hv hvs hf hfs hcv]
              have hN := (lp_vert_compile_fail env st₂ vp fp vs fs hv hf hcv).1
              constructor
              · simp [hN]
              · simp
          | true =>
            cases hcf : env.compileOk ShaderType.fragment fs with
            | false =>
                rw [legacy_frag_compile_fail env st₁ vp fp vs fs hv hvs hf hfs hcv hcf]
                have hN := (lp_frag_compile_fail env st₂ vp fp vs fs hv hf hcv hcf).1
                constructor
                · simp [hN]
                · simp
            | true =>
              cases hlk : env.linkOk vs fs with
              | false =>
                  rw [legacy_link_fail env st₁ vp fp vs fs hv hvs hf hfs hcv hcf hlk]
                  have hN := (lp_link_fail env st₂ vp fp vs fs hv hf hcv hcf hlk).1
                  constructor
                  · simp [hN]
                  · simp
              | true =>
                  rw [legacy_allok env st₁ vp fp vs fs hv hvs hf hfs hcv hcf hlk]
                  obtain ⟨hN, hNne⟩ := lp_allok env st₂ vp fp vs fs hv hf hcv hcf hlk
                  constructor
                  · constructor
                    · intro h0
                      exact absurd h0 (by omega)
                    · intro hrhs
                      exfalso
                      rcases hrhs with ⟨e, he⟩ | hev | hef
                      · rw [hN] at he
                        exact absurd he (by simp)
                      · simp at hev
                        exact hvs hev
                      · simp at hef
                        exact hfs hef
                  · intro _
                    exact ⟨vs, fs, st₂.nextId + 1 + 1 + 1, rfl, rfl, hcv, hcf, hlk,
                      hN, hNne⟩

/-- Helper: a terminating run of the desktop while-loop performs exactly the
tick iterations up to the first state with the close-requested flag set. -/
theorem loopFrames_spec {σ : Type} (A : AppOps σ) :
    ∀ (fuel : Nat) (s sEnd : σ) (evs : List HookEvent),
      Application.loopFrames A fuel s = some (sEnd, evs) →
      ∃ k, evs = List.replicate k HookEvent.tick ∧
        sEnd = A.tick^[k] s ∧
        A.shouldQuit (A.tick^[k] s) = true ∧
        ∀ j, j < k → A.shouldQuit (A.tick^[j] s) = false := by
  intro fuel
  induction fuel with
  | zero =>
      intro s sEnd evs h
      simp [Application.loopFrames] at h
  | succ n ih =>
      intro s sEnd evs h
      have hstep : Application.loopFrames A (n + 1) s =
          if A.shouldQuit s = true then some (s, [])
          else (Application.loopFrames A n (A.tick s)).map
            (fun r => (r.1, HookEvent.tick :: r.2)) := rfl
      rw [hstep] at h
      by_cases hq : A.shouldQuit s = true
      · rw [if_pos hq] at h
        simp only [Option.some.injEq, Prod.mk.injEq] at h
        obtain ⟨h1, h2⟩ := h
        refine ⟨0, ?_, ?_, ?_, ?_⟩
        · simp [← h2]
        · simp [← h1]
        · simpa using hq
        · intro j hj
          omega
      · rw [if_neg hq] at h
        cases hrec : Application.loopFrames A n (A.tick s) with
        | none =>
            rw [hrec] at h
            simp at h
        | some r =>
            obtain ⟨sQ, evsQ⟩ := r
            rw [hrec] at h
            simp only [Option.map_some', Option.some.injEq, Prod.mk.injEq] at h
            obtain ⟨h1, h2⟩ := h
            obtain ⟨k, hk1, hk2, hk3, hk4⟩ := ih (A.tick s) sQ evsQ hrec
            have hq' : A.shouldQuit s = false := by
              cases hqq : A.shouldQuit s with
              | true => exact absurd hqq hq
              | false => rfl
            refine ⟨k + 1, ?_, ?_, ?_, ?_⟩
            · rw [← h2, hk1, List.replicate_succ]
            · rw [← h1, hk2, Function.iterate_succ_apply]
            · rw [Function.iterate_succ_apply]
              exact hk3
            · intro j hj
              cases j with
              | zero => simpa using hq'
              | succ j =>
                  rw [Function.iterate_succ_apply]
                  exact hk4 j (by omega)

/-- C4: on the desktop target a returning run() performed onInit, then tick()
iterations exactly until shouldQuit() first reported the close-requested
flag, then the onShutdown hook exactly once; on the web target run()
registers tick() as the per-host-animation-frame callback and the observed
trace after any number of host frames contains no shutdown invocation. -/
theorem run_lifecycle_hooks {σ : Type} (A : AppOps σ) (fuel : Nat)
    (s₀ sEnd : σ) (evs : List HookEvent)
    (h : Application.runDesktop A fuel s₀ = some (sEnd, evs)) :
    evs.count HookEvent.shutdown = 1 ∧
    (∃ k, evs.count HookEvent.tick = k ∧
      sEnd = A.onShutdown (A.tick^[k] (A.onInit s₀)) ∧
      A.shouldQuit (A.tick^[k] (A.onInit s₀)) = true ∧
      ∀ j, j < k → A.shouldQuit (A.tick^[j] (A.onInit s₀)) = false) ∧
    (∀ frames : Nat,
      (Application.runWeb A frames s₀).2.count HookEvent.shutdown = 0 ∧
      (Application.runWeb A frames s₀).1 = A.tick^[frames] (A.onInit s₀)) := by
  cases hlf : Application.loopFrames A fuel (A.onInit s₀) with
  | none =>
      have hrd : Application.runDesktop A fuel s₀ = none := by
        simp [Application.runDesktop, hlf]
      rw [hrd] at h
      exact absurd h (by simp)
  | some r =>
      obtain ⟨sQ, evsQ⟩ := r
      have hrd : Application.runDesktop A fuel s₀ =
          some (A.onShutdown sQ,
            HookEvent.init :: evsQ ++ [HookEvent.shutdown]) := by
        simp [Application.runDesktop, hlf]
      rw [hrd] at h
      simp only [Option.some.injEq, Prod.mk.injEq] at h
      obtain ⟨h1, h2⟩ := h
      obtain ⟨k, hk1, hk2, hk3, hk4⟩ :=
        loopFrames_spec A fuel (A.onInit s₀) sQ evsQ hlf
      subst h2
      subst hk1
      refine ⟨?_, ⟨k, ?_, ?_, hk3, hk4⟩, ?_⟩
      · simp [List.count_cons, List.count_append, List.count_replicate]
      · simp [List.count_cons, List.count_append, List.count_replicate]
      · rw [← h1, hk2]
      · intro frames
        constructor
        · simp [Application.runWeb, Application.registerMainLoop,
            List.count_cons, List.count_replicate]
        · simp [Application.runWeb, Application.registerMainLoop]

/-- C4 witness: the demo application reaches the close request after two
ticks; runDesktop returns, the trace holds one shutdown event after the two
ticks, and the web trace never holds a shutdown event. -/
theorem run_lifecycle_hooks_witness :
    [HookEvent.init, HookEvent.tick, HookEvent.tick,
        HookEvent.shutdown].count HookEvent.shutdown = 1 ∧
    (∃ k, [HookEvent.init, HookEvent.tick, HookEvent.tick,
        HookEvent.shutdown].count HookEvent.tick = k ∧
      (1002 : Nat) = demoApp.onShutdown (demoApp.tick^[k] (demoApp.onInit 0)) ∧
      demoApp.shouldQuit (demoApp.tick^[k] (demoApp.onInit 0)) = true ∧
      ∀ j, j < k → demoApp.shouldQuit (demoApp.tick^[j] (demoApp.onInit 0)) = false) ∧
    (∀ frames : Nat,
      (Application.runWeb demoApp frames 0).2.count HookEvent.shutdown = 0 ∧
      (Application.runWeb demoApp frames 0).1 =
        demoApp.tick^[frames] (demoApp.onInit 0)) :=
  run_lifecycle_hooks demoApp 10 0 1002
    [HookEvent.init, HookEvent.tick, HookEvent.tick, HookEvent.shutdown]
    (by decide)

end VibeGL
